import Mathlib

/-!
Verification development for the veles process-orchestration layer:
launcher (role selection, lifecycle, remote node bootstrap), worker
thread pool (shutdown semantics, process-wide registry and hooks),
device manager (performance cache and benchmark rating computation),
and the distributed-execution contract-test workflow.

Each definition is a shallow embedding of the corresponding Python
source in `src/veles`.  Times are modelled as rationals, Python dicts
keyed by numeric-data-type name as total functions `String -> _`
(every `DeviceInfo` map carries exactly the same fixed key set in the
source, so `dict.update` with such a map is wholesale replacement),
and side effects (callback invocation, stop signals, remote launches)
as explicit event traces.
-/

/-! ## Python string primitives

`str.strip()`, `str.split(c)`, `int(...)` on decimal literals, string
truthiness, and `str.join`, implemented by structural recursion over
the character list so that every concrete instance evaluates inside
the kernel. -/

/-- Python `str.split(c)` on a one-character separator: `"" → [""]`,
separators at the ends and adjacent separators yield empty parts,
exactly as in Python. -/
def splitOnChar (c : Char) : List Char → List (List Char)
  | [] => [[]]
  | x :: xs =>
    let r := splitOnChar c xs
    if x = c then [] :: r
    else
      match r with
      | [] => [[x]]
      | h :: t => (x :: h) :: t

/-- Leading and trailing whitespace removal (`str.strip()`). -/
def trimChars (l : List Char) : List Char :=
  ((l.dropWhile Char.isWhitespace).reverse.dropWhile Char.isWhitespace).reverse

/-- Python `str.strip()`. -/
def pyStrip (s : String) : String := ⟨trimChars s.data⟩

/-- Python `str.split(c)` for a single-character separator. -/
def pySplit (c : Char) (s : String) : List String :=
  (splitOnChar c s.data).map (fun l => ⟨l⟩)

/-- The numeric value of one decimal digit. -/
def charDigit? (c : Char) : Option ℕ :=
  if '0' ≤ c ∧ c ≤ '9' then some (c.toNat - '0'.toNat) else none

/-- Accumulating decimal parse. -/
def natFromCharsAux : ℕ → List Char → Option ℕ
  | acc, [] => some acc
  | acc, c :: cs =>
    match charDigit? c with
    | none => none
    | some d => natFromCharsAux (acc * 10 + d) cs

/-- Python `int(s)` for the non-negative decimal literals appearing in node
specifications; anything else raises `ValueError`, modelled as
`none`. -/
def pyToNat? (s : String) : Option ℕ :=
  match s.data with
  | [] => none
  | l => natFromCharsAux 0 l

/-- Python string truthiness: non-empty. -/
def pyTruthy (s : String) : Bool := s ≠ ""

/-- Python `c.join(parts)` for a one-character separator (inverse of
`splitOnChar`), used for the remainder after the first `:` of the
listen address. -/
def joinChar (c : Char) : List (List Char) → List Char
  | [] => []
  | [l] => l
  | l :: ls => l ++ c :: joinChar c ls

/-! ## Launcher: configuration and role derivation (`launcher.py`) -/

/-- The launcher's parsed configuration, after the constructor's
whitespace trimming of the master and listen addresses
(`launcher.py` lines 94-99).  `nodes` is the raw comma-separated
remote-node specification string. -/
structure LauncherArgs where
  master_address : String
  listen_address : String
  nodes : String
deriving Repr, DecidableEq

/-- Embeds `Launcher.__init__` argument post-processing:
`self.args.master_address = self.args.master_address.strip()` and
likewise for the listen address; `nodes` itself is not stripped
(only its comma-separated entries are, in `slavesList`). -/
def parseLauncherArgs (master listen nodes : String) : LauncherArgs :=
  { master_address := pyStrip master
    listen_address := pyStrip listen
    nodes := nodes }

/-- Property `is_master`: Python `True if self.args.listen_address else False`,
i.e. string truthiness = non-emptiness. -/
def Launcher.is_master (a : LauncherArgs) : Bool :=
  pyTruthy a.listen_address

/-- Property `is_slave`: truthiness of the master address. -/
def Launcher.is_slave (a : LauncherArgs) : Bool :=
  pyTruthy a.master_address

/-- Property `is_standalone`: `not self.is_master and not self.is_slave`. -/
def Launcher.is_standalone (a : LauncherArgs) : Bool :=
  !Launcher.is_master a && !Launcher.is_slave a

/-- Property `mode`: first matching role predicate wins; the defensive final
branch raises `RuntimeError("Impossible happened")`, modelled as
`Except.error`. -/
def Launcher.mode (a : LauncherArgs) : Except String String :=
  if Launcher.is_master a then Except.ok "master"
  else if Launcher.is_slave a then Except.ok "slave"
  else if Launcher.is_standalone a then Except.ok "standalone"
  else Except.error "Impossible happened"

/-- Line `self._slaves = [x.strip() for x in self.args.nodes.split(',')
if x.strip() != ""]` (`launcher.py` line 98). -/
def slavesList (a : LauncherArgs) : List String :=
  ((pySplit ',' a.nodes).map pyStrip).filter (fun x => x ≠ "")

/-- The `slaves` property: `self._slaves if self.is_master else []`. -/
def Launcher.slaves (a : LauncherArgs) : List String :=
  if Launcher.is_master a then slavesList a else []

/-! ## Launcher: remote-node expansion (`_launch_nodes`) -/

/-- The parsed form of one remote-node entry
`host/platform:deviceMin[-deviceMax][xMultiplier]`. -/
structure NodeSpec where
  host : String
  platform : ℕ
  devMin : ℕ
  devMax : ℕ
  mult : ℕ
deriving Repr, DecidableEq

/-- Python `range(a, b)` as a list (`a, a+1, ..., b-1`). -/
def pyRange (a b : ℕ) : List ℕ :=
  List.range' a (b - a)

/-- Embeds the per-node parsing in `_launch_nodes`
(`launcher.py` lines 344-357): `host, devs = node.split('/')`
(exactly two parts or `ValueError`), `marray = devs.split('x')` with
`multiplier = int(marray[1])` when present (extra parts ignored),
`oclpnums, ocldevnum = marray[0].split(':')` (exactly two parts),
`ocldevarr = ocldevnum.split('-')` with `ocldevmax` defaulting to
`ocldevmin`.  Failures (wrong shape, non-numeric field) are `none`. -/
def parseNode (node : String) : Option NodeSpec :=
  match pySplit '/' node with
  | [host, devs] =>
    let marray := pySplit 'x' devs
    match marray with
    | [] => none
    | spec :: rest =>
      let multOpt : Option ℕ :=
        match rest with
        | [] => some 1
        | m :: _ => pyToNat? m
      match multOpt with
      | none => none
      | some mult =>
        match pySplit ':' spec with
        | [oclpnums, ocldevnum] =>
          match pyToNat? oclpnums with
          | none => none
          | some p =>
            match pySplit '-' ocldevnum with
            | [] => none
            | dmins :: drest =>
              match pyToNat? dmins with
              | none => none
              | some dmin =>
                let dmaxOpt : Option ℕ :=
                  match drest with
                  | [] => some dmin
                  | dmaxs :: _ => pyToNat? dmaxs
                match dmaxOpt with
                | none => none
                | some dmax => some ⟨host, p, dmin, dmax, mult⟩
        | _ => none
  | _ => none

/-- The launch loop for one parsed node
(`for _ in range(0, multiplier): for d in range(ocldevmin,
ocldevmax + 1): self._launch_remote_program(host, ... -d p:d)`),
as the ordered list of `(platform, device)` selectors launched. -/
def expandSpec (s : NodeSpec) : List (ℕ × ℕ) :=
  (List.range s.mult).flatMap
    (fun _ => (pyRange s.devMin (s.devMax + 1)).map (fun d => (s.platform, d)))

/-- One node entry's full effect: parse, then the host together with
the launched selectors in launch order. -/
def nodeLaunches (node : String) : Option (String × List (ℕ × ℕ)) :=
  (parseNode node).map (fun s => (s.host, expandSpec s))

/-- Lines `host = listen_address[0:listen_address.index(':')]`,
`port = listen_address[len(host)+1:]`; `str.index` raises when no
colon exists, modelled as `none`. -/
def splitListen (listen : String) : Option (String × String) :=
  match pySplit ':' listen with
  | [] => none
  | [_] => none
  | h :: rest => some (h, ⟨joinChar ':' (rest.map String.data)⟩)

/-- Method `_launch_nodes` as the list of `(host, platform, device)` remote
launches it performs.  The early return (`if len(self.slaves) == 0:
return`) yields no launches; otherwise the slave command line is
built (the listen-address split can raise, hence `Option`) and every
configured node is parsed and expanded.  The remote-shell execution
itself is an external best-effort side effect, recorded only as the
launch triple. -/
def launchNodes (a : LauncherArgs) : Option (List (String × ℕ × ℕ)) :=
  if (Launcher.slaves a).length = 0 then some []
  else
    match splitListen a.listen_address with
    | none => none
    | some _ =>
      ((Launcher.slaves a).mapM (fun node =>
        (nodeLaunches node).map
          (fun hl => hl.2.map (fun pd => (hl.1, pd.1, pd.2))))).map List.flatten

/-! ## Worker thread pool (`thread_pool.py`) -/

/-- An item in the pool's bounded task queue: either the twisted
`WorkerStop` sentinel or an ordinary task (identified by a number;
the callable itself is opaque). -/
inductive QItem where
  | workerStop : QItem
  | task (id : ℕ) : QItem
deriving Repr, DecidableEq

/-- Observable events emitted by `ThreadPool.shutdown`: invocation of
one registered shutdown callback (identified by its registration id),
or one `WorkerStop` signal sent to the workers. -/
inductive PEvent where
  | callback (id : ℕ) : PEvent
  | stopSignal : PEvent
deriving Repr, DecidableEq

/-- The state of one `ThreadPool` relevant to shutdown.  Callbacks are
opaque identifiers; `putLeft` records whether `self.q._put` has been
rebound to `ThreadPool._put` (which does `appendleft`); `inPools`
is this pool's membership in the process-wide `ThreadPool.pools`
registry. -/
structure PoolSt where
  onShutdowns : List ℕ
  shuttingDown : Bool
  joined : Bool
  workers : ℕ
  queue : List QItem
  putLeft : Bool
  inPools : Bool
deriving Repr, DecidableEq

/-- Call `self.q.put(item)`: the front of the queue is the head of the
list (`queue.Queue._get` pops from the left); the normal `_put`
appends at the back, the rebound `ThreadPool._put` does
`self.queue.appendleft(item)`. -/
def qput (putLeft : Bool) (q : List QItem) (item : QItem) : List QItem :=
  if putLeft then item :: q else q ++ [item]

/-- The stop-signal loop `while self.workers: self.q.put(WorkerStop);
self.workers -= 1`, threading the queue through `qput`. -/
def putStops : ℕ → Bool → List QItem → List QItem
  | 0, _, q => q
  | n + 1, pl, q => putStops n pl (qput pl q QItem.workerStop)

/-- Method `ThreadPool.shutdown(execute_remaining, force, timeout)`
(`thread_pool.py` lines 82-120) as a state transformer with an event
trace.  Early return when the pool is not registered or already
shutting down.  Otherwise: run every registered callback in order,
clear the callback list, set `joined`, rebind `_put` when
`execute_remaining` is false, send one `WorkerStop` per live worker,
join the worker threads (`force`/`timeout` only affect thread killing,
which has no effect on this state), remove the pool from the
registry, and finally reset `shutting_down` to `False` (line 120). -/
def ThreadPool.shutdown (execute_remaining force : Bool) (timeout : ℚ)
    (s : PoolSt) : PoolSt × List PEvent :=
  if !s.inPools || s.shuttingDown then (s, [])
  else
    let cbEvents := s.onShutdowns.map PEvent.callback
    let pl := if execute_remaining then s.putLeft else true
    let q := putStops s.workers pl s.queue
    let stopEvents := List.replicate s.workers PEvent.stopSignal
    let _ := force
    let _ := timeout
    ({ onShutdowns := []
       shuttingDown := false
       joined := true
       workers := 0
       queue := q
       putLeft := pl
       inPools := false },
     cbEvents ++ stopEvents)

/-- The executed tasks when worker threads drain a queue: each of the
`w` live workers repeatedly dequeues from the front, exits on
`WorkerStop`, and executes ordinary tasks.  Returns the ids of the
tasks that get executed. -/
def drainQueue : ℕ → List QItem → List ℕ
  | _, [] => []
  | 0, _ => []
  | w + 1, QItem.workerStop :: rest => drainQueue w rest
  | w + 1, QItem.task id :: rest => id :: drainQueue (w + 1) rest

/-! ## Process-wide pool registry and one-time hooks -/

/-- Process-wide state touched by pool construction and shutdown:
the `ThreadPool.pools` registry (pool ids in registration order) and
the ids of the pools that installed the `sys.exit` wrapper and the
SIGINT handler, in installation order (`installs.length` is the
number of installations performed so far). -/
structure ProcState where
  pools : List ℕ
  installs : List ℕ
deriving Repr, DecidableEq

/-- Fresh process: empty registry, hooks never installed. -/
def initialProc : ProcState := ⟨[], []⟩

/-- One registry-affecting operation: constructing a pool
(`ThreadPool.__init__`) or shutting one down
(`ThreadPool.shutdown`). -/
inductive PoolOp where
  | construct (id : ℕ) : PoolOp
  | shutdown (id : ℕ) : PoolOp
deriving Repr, DecidableEq

/-- Registry effect of one operation.  Construction
(`thread_pool.py` lines 48-53): `if not ThreadPool.pools:` install
the `sys.exit` wrapper and the SIGINT handler (recorded in
`installs`), then `ThreadPool.pools.append(self)`.  Shutdown: no-op
unless registered, else `ThreadPool.pools.remove(self)`
(line 118). -/
def poolStep (s : ProcState) : PoolOp → ProcState
  | PoolOp.construct id =>
    let s' := if s.pools = [] then { s with installs := s.installs ++ [id] } else s
    { s' with pools := s'.pools ++ [id] }
  | PoolOp.shutdown id =>
    if id ∈ s.pools then { s with pools := s.pools.erase id } else s

/-- A whole process history of constructions and shutdowns. -/
def runPoolOps (ops : List PoolOp) : ProcState :=
  ops.foldl poolStep initialProc

/-! ## Device manager (`opencl.py`) -/

/-- Record `DeviceInfo`: the per-device performance record.  The four
per-data-type dicts (all keyed by exactly the numeric data-type
names) are modelled as total functions from the type name. -/
structure DeviceInfoM where
  desc : String
  rating : String → ℚ
  dt : String → ℚ
  min_dt : String → ℚ
  block : String → ℕ

/-- Constructor `DeviceInfo.__init__` defaults: rating 0.0, `dt` and `min_dt`
86400 (the one-day "never measured" sentinel), `BLOCK_SIZE` 8, for
every data type. -/
def DeviceInfoM.mkDefault (desc : String) : DeviceInfoM :=
  { desc := desc
    rating := fun _ => 0
    dt := fun _ => 86400
    min_dt := fun _ => 86400
    block := fun _ => 8 }

/-- One measurement event inside the `_do_tests` sweep over
`BLOCK_SIZE in range(32, 3, -1)` and the sorted data types: either a
CPU (numpy) reference timing for a data type, or a successful device
kernel timing for a `(data type, BLOCK_SIZE)` pair (a combination
whose build or run raises `RuntimeError` produces no event). -/
inductive Obs where
  | numpy (dtype : String) (t : ℚ) : Obs
  | dev (dtype : String) (bs : ℕ) (t : ℚ) : Obs

/-- The data type an observation belongs to. -/
def Obs.dtype : Obs → String
  | Obs.numpy ty _ => ty
  | Obs.dev ty _ _ => ty

/-- The measured time of an observation. -/
def Obs.time : Obs → ℚ
  | Obs.numpy _ t => t
  | Obs.dev _ _ t => t

/-- The mutable locals of `_do_tests` during the sweep: `dt_numpy`,
`min_dt`, and the current device's `dt`/`BLOCK_SIZE` maps (mutated
in place through `self.device_info`). -/
structure TestState where
  dt_numpy : String → ℚ
  min_dt : String → ℚ
  dev_dt : String → ℚ
  dev_block : String → ℕ

/-- The sweep-body updates (`opencl.py` lines 188-203).  CPU timing:
`if dt < dt_numpy[dtype]: dt_numpy[dtype] = dt` then
`if dt_numpy[dtype] < min_dt[dtype]: min_dt[dtype] = dt_numpy[dtype]`.
Device timing: `if dt < self.device_info.dt[dtype]:` record `dt` and
the block size, then `if dt < min_dt[dtype]: min_dt[dtype] = dt`. -/
def stepObs (s : TestState) : Obs → TestState
  | Obs.numpy ty t =>
    let dtn := if t < s.dt_numpy ty then t else s.dt_numpy ty
    let mdt := if dtn < s.min_dt ty then dtn else s.min_dt ty
    { s with
      dt_numpy := fun x => if x = ty then dtn else s.dt_numpy x
      min_dt := fun x => if x = ty then mdt else s.min_dt x }
  | Obs.dev ty bs t =>
    let s' :=
      if t < s.dev_dt ty then
        { s with
          dev_dt := fun x => if x = ty then t else s.dev_dt x
          dev_block := fun x => if x = ty then bs else s.dev_block x }
      else s
    if t < s'.min_dt ty then
      { s' with min_dt := fun x => if x = ty then t else s'.min_dt x }
    else s'

/-- The `min_dt` initialization (`opencl.py` lines 168-176): default
86400 for every data type, then overwritten from the min_dt map of
the FIRST device in the cache's iteration order only (the loop body
ends with `break`). -/
def initMinDt (infos : List DeviceInfoM) : String → ℚ :=
  match infos with
  | [] => fun _ => 86400
  | di :: _ => di.min_dt

/-- The post-sweep rating assignment (`opencl.py` lines 228-243):
for every device in the cache and every data type,
`rating = min_dt[dtype] / device_info.dt[dtype]` and
`device_info.min_dt[dtype] = min_dt[dtype]`. -/
def applyRatings (minDt : String → ℚ) (infos : List DeviceInfoM) :
    List DeviceInfoM :=
  infos.map (fun di =>
    { di with
      rating := fun ty => minDt ty / di.dt ty
      min_dt := minDt })

/-- Method `_do_tests(device_infos)` given the cache contents in iteration
order (`infos`, the current device already inserted under `curDesc`),
and the sweep's measurement outcomes `obs` in occurrence order.
Steps: `min_dt` initialized from the first cache entry; the current
device's `dt` map reset to 86400 (lines 179-180) while its
`BLOCK_SIZE` map is kept; the sweep folds `stepObs`; the current
device's in-place mutations are written back (Python aliasing: the
cache holds the same object as `self.device_info`); finally ratings
are assigned and `min_dt` leveled for every cached device. -/
def doTests (infos : List DeviceInfoM) (curDesc : String)
    (obs : List Obs) : List DeviceInfoM :=
  let curBlock :=
    match infos.find? (fun di => di.desc = curDesc) with
    | some di => di.block
    | none => fun _ => 8
  let s0 : TestState :=
    { dt_numpy := fun _ => 86400
      min_dt := initMinDt infos
      dev_dt := fun _ => 86400
      dev_block := curBlock }
  let s := obs.foldl stepObs s0
  let infos1 := infos.map (fun di =>
    if di.desc = curDesc then
      { di with dt := s.dev_dt, block := s.dev_block }
    else di)
  applyRatings s.min_dt infos1

/-- Line `device_infos[self.device_info.desc] = self.device_info`
(`opencl.py` line 148) on the ordered cache: replace in place when
the key exists (Python dicts keep the original position), else
append. -/
def updateCache (infos : List DeviceInfoM) (di : DeviceInfoM) :
    List DeviceInfoM :=
  if infos.any (fun d => d.desc = di.desc) then
    infos.map (fun d => if d.desc = di.desc then di else d)
  else infos ++ [di]

/-- The configuration flags consulted by
`_fill_device_info_performance_values`. -/
structure OclConfig where
  test_known_device : Bool
  test_unknown_device : Bool
deriving Repr, DecidableEq

/-- Method `_fill_device_info_performance_values` (`opencl.py` lines
116-158).  `loaded` is the result of opening and unpickling the
cache file: `none` when that raises `IOError` (missing/unreadable
file), which the source catches, logs, and treats as the initial
empty dict.  `obs` is the measurement oracle consumed if `_do_tests`
runs.  Returns the resulting `device_info` and whether a
benchmarking pass ran.  Branches: if the device's description is in
the cache and `test_known_device` is not set, adopt the cached four
maps via `dict.update` (wholesale replacement, same key sets) and
return without testing; else if `test_unknown_device` is not set,
return unchanged without testing; else insert the current device
into the cache, run `_do_tests`, and keep the mutated record
(the rewrite of the cache file is an external effect). -/
def fillDeviceInfoPerformanceValues (cfg : OclConfig)
    (loaded : Option (List DeviceInfoM)) (di : DeviceInfoM)
    (obs : List Obs) : DeviceInfoM × Bool :=
  let device_infos := loaded.getD []
  if !cfg.test_known_device &&
      device_infos.any (fun d => d.desc = di.desc) then
    match device_infos.find? (fun d => d.desc = di.desc) with
    | some cached =>
      ({ di with
         rating := cached.rating
         block := cached.block
         dt := cached.dt
         min_dt := cached.min_dt }, false)
    | none => (di, false)
  else if !cfg.test_unknown_device then (di, false)
  else
    let infos := updateCache device_infos di
    let out := doTests infos di.desc obs
    (match out.find? (fun d => d.desc = di.desc) with
     | some d => d
     | none => di, true)

/-! ## Contract-test workflow (`tests/network.py`) -/

/-- The universe of values a pickled payload can deserialize to
(enough structure to distinguish dicts from everything else, as
`TestWorkflow` does with `isinstance(obj, dict)`). -/
inductive PyValue where
  | dict (entries : List (String × PyValue)) : PyValue
  | list (xs : List PyValue) : PyValue
  | str (s : String) : PyValue
  | int (n : ℤ) : PyValue
  | boolv (b : Bool) : PyValue
  | noneV : PyValue

/-- Test `isinstance(obj, dict)`. -/
def PyValue.isDict : PyValue → Bool
  | PyValue.dict _ => true
  | _ => false

/-- Method `TestWorkflow.apply_update(update, slave)` (`tests/network.py`
lines 38-43): deserialize the payload (`pickle.loads`, modelled as
already yielding the `PyValue`); if it is a dict, set the class-wide
`update_applied` flag and return `True`, else return `False` leaving
the flag as it was.  Result: `(new flag value, returned bool)`. -/
def applyUpdate (update_applied : Bool) (update : PyValue) :
    Bool × Bool :=
  if update.isDict then (true, true)
  else (update_applied, false)

/-! ## Launcher run/stop lifecycle (`launcher.py` stop path)

`Launcher.stop` is wrapped by the `threadsafe` decorator
(`launcher.py` lines 34-38), which does `with self._lock:` around the
body; `self._lock` is a non-reentrant `threading.Lock` (line 119).
`add_ref` registers the bound method `self.stop` as a shutdown
callback of the workflow's thread pool (line 201), and
`ThreadPool.shutdown` invokes the registered callbacks synchronously
on the calling thread (`thread_pool.py` lines 90-92).  So the model
couples the launcher flags, the lock, and the workflow pool's
shutdown-relevant state, and every call returns either normally or
as `blocks`: the calling thread is parked forever trying to acquire
the already-held non-reentrant lock. -/

/-- Teardown and pool events emitted along the stop path.  The
status-notification and graphics teardown steps call external
collaborators (twisted `LoopingCall`, tornado `IOLoop`, the graphics
pair) and are recorded as events. -/
inductive LEvent where
  | infoStopping : LEvent
  | notifyTaskStop : LEvent
  | ioloopStop : LEvent
  | graphicsShutdown : LEvent
  | reactorStop : LEvent
  | poolCallback (id : ℕ) : LEvent
  | poolStopSignal : LEvent
deriving Repr, DecidableEq

/-- One entry of the workflow pool's `on_shutdowns` list: the
launcher's own `self.stop` registered by `add_ref`
(`launcher.py` line 201), or any other registered callback, kept
opaque and recorded as an event when invoked. -/
inductive PoolCallback where
  | launcherStop : PoolCallback
  | otherCb (id : ℕ) : PoolCallback
deriving Repr, DecidableEq

/-- Launcher lifecycle state: the two flags and the non-reentrant
`self._lock`, the configuration predicates selecting teardown
branches, and the workflow thread pool's shutdown-relevant fields
(registry membership, `shutting_down`, `on_shutdowns`, live worker
count). -/
structure LauncherProc where
  initialized : Bool
  running : Bool
  reportsWebStatus : Bool
  plottersEnabled : Bool
  lockHeld : Bool
  poolInPools : Bool
  poolShuttingDown : Bool
  poolCallbacks : List PoolCallback
  poolWorkers : ℕ
deriving Repr, DecidableEq

/-- Outcome of running a launcher operation on the calling thread:
the call returns with the resulting state, or the thread blocks
forever acquiring the already-held non-reentrant `self._lock`
(`threading.Lock` never succeeds a nested acquire from the same
thread). -/
inductive LOutcome where
  | returns (s : LauncherProc) : LOutcome
  | blocks (s : LauncherProc) : LOutcome
deriving Repr, DecidableEq

/-- The `_on_stop` teardown events that precede the pool shutdown
(`launcher.py` lines 280-296): stop the notification task and the
tornado loop when web-status reporting is on, shut the graphics pair
down when plotting is on. -/
def onStopPreEvents (s : LauncherProc) : List LEvent :=
  (if s.reportsWebStatus then [LEvent.notifyTaskStop, LEvent.ioloopStop]
   else []) ++
  (if s.plottersEnabled then [LEvent.graphicsShutdown] else [])

/-- The registered `self.stop` callback as invoked from inside
`ThreadPool.shutdown`'s callback loop.  The `threadsafe` wrapper
first acquires `self._lock`: if this thread already holds it, the
acquire blocks forever.  Otherwise the `stop` body runs
(`launcher.py` lines 243-256); when it reaches `_on_stop`, the
nested `self.workflow.thread_pool.shutdown()` call returns
immediately, because the pool's `shutting_down` flag is already
`True` whenever a shutdown callback runs (`thread_pool.py` line 87
sets it before the loop at lines 90-92) — that guaranteed
short-circuit is inlined here, cutting the recursion. -/
def stopCallback (s : LauncherProc) : LOutcome × List LEvent :=
  if s.lockHeld then (LOutcome.blocks s, [])
  else
    let s1 := { s with lockHeld := true }
    if !s1.initialized then
      (LOutcome.returns { s1 with lockHeld := false }, [])
    else if !s1.running then
      (LOutcome.returns
        { s1 with initialized := false, running := false,
                  lockHeld := false },
       LEvent.infoStopping :: onStopPreEvents s1)
    else
      (LOutcome.returns { s1 with lockHeld := false },
       [LEvent.infoStopping, LEvent.reactorStop])

/-- The callback loop of `ThreadPool.shutdown`
(`thread_pool.py` lines 90-92): invoke each registered callback in
registration order on the calling thread.  A callback that blocks
parks the thread, so nothing after it runs. -/
def runCallbacks (s : LauncherProc) :
    List PoolCallback → LOutcome × List LEvent
  | [] => (LOutcome.returns s, [])
  | PoolCallback.launcherStop :: rest =>
    match stopCallback s with
    | (LOutcome.blocks s', es) => (LOutcome.blocks s', es)
    | (LOutcome.returns s', es) =>
      let r := runCallbacks s' rest
      (r.1, es ++ r.2)
  | PoolCallback.otherCb id :: rest =>
    let r := runCallbacks s rest
    (r.1, LEvent.poolCallback id :: r.2)

/-- `ThreadPool.shutdown` on the workflow's pool, coupled with the
launcher state its `launcherStop` callback mutates
(`thread_pool.py` lines 82-120, default arguments): early return
when unregistered or already shutting down; else set
`shutting_down`, run the callbacks in order, and — only if none
blocked — clear the callback list, send one stop signal per worker,
deregister, and reset `shutting_down`. -/
def workflowPoolShutdown (s : LauncherProc) : LOutcome × List LEvent :=
  if !s.poolInPools || s.poolShuttingDown then (LOutcome.returns s, [])
  else
    let s1 := { s with poolShuttingDown := true }
    match runCallbacks s1 s1.poolCallbacks with
    | (LOutcome.blocks s2, es) => (LOutcome.blocks s2, es)
    | (LOutcome.returns s2, es) =>
      (LOutcome.returns
        { s2 with poolCallbacks := []
                  poolWorkers := 0
                  poolInPools := false
                  poolShuttingDown := false },
       es ++ List.replicate s2.poolWorkers LEvent.poolStopSignal)

/-- Method `Launcher._on_stop` (`launcher.py` lines 277-297): clear
both flags, run the status/graphics teardown, then
`self.workflow.thread_pool.shutdown()`. -/
def launcherOnStop (s : LauncherProc) : LOutcome × List LEvent :=
  let s1 := { s with initialized := false, running := false }
  let r := workflowPoolShutdown s1
  (r.1, onStopPreEvents s1 ++ r.2)

/-- Method `Launcher.stop` (`launcher.py` lines 243-256) including
its `threadsafe` lock acquisition: blocks when the lock is held;
silent no-op when not initialized; direct `_on_stop` teardown when
initialized but not running (the lock is released only if that call
returns); otherwise `reactor.stop()` (failures logged, not
propagated). -/
def launcherStop (s : LauncherProc) : LOutcome × List LEvent :=
  if s.lockHeld then (LOutcome.blocks s, [])
  else
    let s1 := { s with lockHeld := true }
    if !s1.initialized then
      (LOutcome.returns { s1 with lockHeld := false }, [])
    else if !s1.running then
      match launcherOnStop s1 with
      | (LOutcome.blocks s2, es) =>
        (LOutcome.blocks s2, LEvent.infoStopping :: es)
      | (LOutcome.returns s2, es) =>
        (LOutcome.returns { s2 with lockHeld := false },
         LEvent.infoStopping :: es)
    else
      (LOutcome.returns { s1 with lockHeld := false },
       [LEvent.infoStopping, LEvent.reactorStop])

/-- The C6 scenario: a launcher bound via `add_ref` (so the workflow
pool is registered, not shutting down, and its callback list holds
the launcher's `stop`), initialized, never run, with web-status
reporting and plotting off (stealth standalone, no backend), lock
free, three live workers. -/
def c6input : LauncherProc :=
  { initialized := true
    running := false
    reportsWebStatus := false
    plottersEnabled := false
    lockHeld := false
    poolInPools := true
    poolShuttingDown := false
    poolCallbacks := [PoolCallback.launcherStop]
    poolWorkers := 3 }

/-- The state in which the C6 scenario parks forever: flags cleared,
the launcher lock still held by the blocked thread, the pool stuck
mid-shutdown with its callback list never cleared. -/
def c6stuck : LauncherProc :=
  { initialized := false
    running := false
    reportsWebStatus := false
    plottersEnabled := false
    lockHeld := true
    poolInPools := true
    poolShuttingDown := true
    poolCallbacks := [PoolCallback.launcherStop]
    poolWorkers := 3 }

/-! ## Remaining helper definitions -/

/-- The measured times for one data type, in the order the sweep
produced them (CPU and device observations alike). -/
def obsTimes (obs : List Obs) (ty : String) : List ℚ :=
  (obs.filter (fun o => o.dtype = ty)).map Obs.time

/-- A concrete cached performance record used to exercise the
cache-adoption branch. -/
def c7cached : DeviceInfoM :=
  { desc := "d0"
    rating := fun _ => 1
    dt := fun _ => 2
    min_dt := fun _ => 2
    block := fun _ => 16 }

/-! ## Theorems -/

/-- Claim C1: for every launcher configuration after whitespace
trimming, `is_master` holds iff the listen address is non-empty,
`is_slave` iff the master address is non-empty, `is_standalone` iff
both are empty, and `mode` returns "master" when the listen address
is set and the master address empty, "slave" when the master address
is set and the listen address empty, and "standalone" when both are
empty. -/
theorem C1_role_derivation (master listen nodes : String) :
    (Launcher.is_master (parseLauncherArgs master listen nodes) = true ↔
      pyStrip listen ≠ "") ∧
    (Launcher.is_slave (parseLauncherArgs master listen nodes) = true ↔
      pyStrip master ≠ "") ∧
    (Launcher.is_standalone (parseLauncherArgs master listen nodes) = true ↔
      (pyStrip listen = "" ∧ pyStrip master = "")) ∧
    (pyStrip listen ≠ "" → pyStrip master = "" →
      Launcher.mode (parseLauncherArgs master listen nodes) =
        Except.ok "master") ∧
    (pyStrip master ≠ "" → pyStrip listen = "" →
      Launcher.mode (parseLauncherArgs master listen nodes) =
        Except.ok "slave") ∧
    (pyStrip listen = "" → pyStrip master = "" →
      Launcher.mode (parseLauncherArgs master listen nodes) =
        Except.ok "standalone") := by
  refine ⟨?_, ?_, ?_, ?_, ?_, ?_⟩
  · simp [Launcher.is_master, parseLauncherArgs, pyTruthy]
  · simp [Launcher.is_slave, parseLauncherArgs, pyTruthy]
  · simp [Launcher.is_standalone, Launcher.is_master, Launcher.is_slave,
      parseLauncherArgs, pyTruthy, and_comm]
  · intro h1 h2
    simp [Launcher.mode, Launcher.is_master, parseLauncherArgs, pyTruthy, h1]
  · intro h1 h2
    simp [Launcher.mode, Launcher.is_master, Launcher.is_slave,
      parseLauncherArgs, pyTruthy, h1, h2]
  · intro h1 h2
    simp [Launcher.mode, Launcher.is_master, Launcher.is_slave,
      Launcher.is_standalone, parseLauncherArgs, pyTruthy, h1, h2]

/-- Witness for C1: the configuration with untrimmed listen address
" host:80 " and empty master address runs in master mode. -/
theorem C1_role_derivation_witness :
    Launcher.mode (parseLauncherArgs "" " host:80 " "") = Except.ok "master" :=
  (C1_role_derivation "" " host:80 " "").2.2.2.1 (by decide) (by decide)

/-- Claim C9: `apply_update` accepts (returns true) exactly when the
deserialized payload is a dict, and the class-wide `update_applied`
flag (starting unset) ends set exactly in the acceptance case. -/
theorem C9_apply_update (u : PyValue) :
    (applyUpdate false u).2 = u.isDict ∧ (applyUpdate false u).1 = u.isDict := by
  cases u <;> simp [applyUpdate, PyValue.isDict]

/-- Claim C10: when `is_master` is false the `slaves` property is the
empty list and `_launch_nodes` performs no remote launches, whatever
the configured nodes string says. -/
theorem C10_non_master_ignores_nodes (a : LauncherArgs)
    (h : Launcher.is_master a = false) :
    Launcher.slaves a = [] ∧ launchNodes a = some [] := by
  have hs : Launcher.slaves a = [] := by simp [Launcher.slaves, h]
  exact ⟨hs, by simp [launchNodes, hs]⟩

/-- Witness for C10: a standalone configuration with a non-empty
nodes specification launches nothing. -/
theorem C10_witness :
    Launcher.slaves ⟨"", "", "h1/0:0,h2/1:0-2"⟩ = [] ∧
    launchNodes ⟨"", "", "h1/0:0,h2/1:0-2"⟩ = some [] :=
  C10_non_master_ignores_nodes ⟨"", "", "h1/0:0,h2/1:0-2"⟩ (by decide)

/-- Claim C6 names a code bug: on an initialized, never-run launcher
(bound via `add_ref`, which registered `self.stop` on the workflow
pool), the first `stop()` does not terminate.  It acquires the
non-reentrant `self._lock`, `_on_stop` reaches
`self.workflow.thread_pool.shutdown()`, whose callback loop
synchronously re-invokes the registered `self.stop`; that wrapper
blocks forever re-acquiring the already-held lock.  The flags are
cleared before the block, the pool is left mid-shutdown with its
callback list never cleared and no stop signal sent, and any further
`stop()` on that state blocks immediately — never the claimed
raise-free terminating teardown with an idempotent second call. -/
theorem C6_stop_deadlock :
    launcherStop c6input =
      (LOutcome.blocks c6stuck, [LEvent.infoStopping]) ∧
    c6stuck.initialized = false ∧
    c6stuck.running = false ∧
    c6stuck.lockHeld = true ∧
    c6stuck.poolCallbacks = [PoolCallback.launcherStop] ∧
    launcherStop c6stuck = (LOutcome.blocks c6stuck, []) := by
  decide

/-- With the rebound `_put` every stop signal is prepended, so the
stop loop leaves the stop signals in a block at the queue front. -/
theorem putStops_left (n : ℕ) (q : List QItem) :
    putStops n true q = List.replicate n QItem.workerStop ++ q := by
  induction n generalizing q with
  | zero => simp [putStops]
  | succ k ih =>
    show putStops k true (qput true q QItem.workerStop) = _
    rw [show qput true q QItem.workerStop = QItem.workerStop :: q from rfl, ih,
      List.replicate_succ', List.append_assoc, List.singleton_append]

/-- Workers draining a queue that starts with one stop signal per
worker execute none of the queued tasks. -/
theorem drainQueue_stops (w : ℕ) (q : List QItem) :
    drainQueue w (List.replicate w QItem.workerStop ++ q) = [] := by
  induction w with
  | zero => cases q <;> simp [drainQueue]
  | succ k ih => simpa [List.replicate_succ, drainQueue] using ih

/-- Claim C3: on a registered, not-already-shutting-down pool,
`shutdown` invokes every registered callback exactly once, in
registration order, before any stop signal, and clears the callback
list; on an unregistered or already-shutting-down pool it invokes no
callback and changes nothing. -/
theorem C3_shutdown_callbacks (er force : Bool) (timeout : ℚ) (s : PoolSt) :
    (s.inPools = true → s.shuttingDown = false →
      (ThreadPool.shutdown er force timeout s).2 =
        s.onShutdowns.map PEvent.callback ++
          List.replicate s.workers PEvent.stopSignal ∧
      (ThreadPool.shutdown er force timeout s).1.onShutdowns = []) ∧
    (¬(s.inPools = true ∧ s.shuttingDown = false) →
      ThreadPool.shutdown er force timeout s = (s, [])) := by
  constructor
  · intro h1 h2
    simp [ThreadPool.shutdown, h1, h2]
  · intro h
    cases hip : s.inPools with
    | false => simp [ThreadPool.shutdown, hip]
    | true =>
      have hsd : s.shuttingDown = true := by
        cases hsd : s.shuttingDown
        · exact absurd ⟨hip, hsd⟩ h
        · rfl
      simp [ThreadPool.shutdown, hsd]


/-- Witness for C3: a registered pool with callbacks 1, 2, 3 and two
workers emits exactly those callbacks in order, then two stop
signals, and ends with an empty callback list. -/
theorem C3_shutdown_callbacks_witness :
    (ThreadPool.shutdown true false 0
        ⟨[1, 2, 3], false, false, 2, [], false, true⟩).2 =
      [PEvent.callback 1, PEvent.callback 2, PEvent.callback 3,
       PEvent.stopSignal, PEvent.stopSignal] ∧
    (ThreadPool.shutdown true false 0
        ⟨[1, 2, 3], false, false, 2, [], false, true⟩).1.onShutdowns = [] := by
  have h := (C3_shutdown_callbacks true false 0
      ⟨[1, 2, 3], false, false, 2, [], false, true⟩).1 rfl rfl
  exact ⟨by rw [h.1]; rfl, h.2⟩

/-- Claim C4: `shutdown(execute_remaining=false)` prepends one stop
signal per worker to the task queue, so the final queue is the stop
block followed by the still-queued tasks, and draining executes none
of them. -/
theorem C4_discard_remaining (force : Bool) (timeout : ℚ) (s : PoolSt)
    (h1 : s.inPools = true) (h2 : s.shuttingDown = false) :
    (ThreadPool.shutdown false force timeout s).1.queue =
      List.replicate s.workers QItem.workerStop ++ s.queue ∧
    drainQueue s.workers
      (ThreadPool.shutdown false force timeout s).1.queue = [] := by
  have hq : (ThreadPool.shutdown false force timeout s).1.queue =
      putStops s.workers true s.queue := by
    simp [ThreadPool.shutdown, h1, h2]
  rw [hq, putStops_left]
  exact ⟨rfl, drainQueue_stops _ _⟩

/-- Witness for C4: two workers, two queued tasks; the stop signals
end up in front and no queued task executes. -/
theorem C4_discard_remaining_witness :
    (ThreadPool.shutdown false false 0
        ⟨[], false, false, 2, [QItem.task 10, QItem.task 11], false, true⟩).1.queue =
      [QItem.workerStop, QItem.workerStop, QItem.task 10, QItem.task 11] ∧
    drainQueue 2 (ThreadPool.shutdown false false 0
        ⟨[], false, false, 2, [QItem.task 10, QItem.task 11], false, true⟩).1.queue =
      [] := by
  have h := C4_discard_remaining false 0
      ⟨[], false, false, 2, [QItem.task 10, QItem.task 11], false, true⟩ rfl rfl
  exact ⟨by rw [h.1]; rfl, h.2⟩

/-- Constructions performed while the registry is non-empty never
install the process-wide hooks. -/
theorem constructs_no_install (ids : List ℕ) (s : ProcState)
    (hs : s.pools ≠ []) :
    ((ids.map PoolOp.construct).foldl poolStep s).installs = s.installs := by
  induction ids generalizing s with
  | nil => rfl
  | cons i rest ih =>
    simp only [List.map_cons, List.foldl_cons]
    have h1 : poolStep s (PoolOp.construct i) =
        { s with pools := s.pools ++ [i] } := by
      simp [poolStep, hs]
    rw [h1]
    exact ih _ (by simp)

/-- Counterexample to claim C5 as stated: constructing a pool,
shutting it down (emptying the registry), and constructing another
pool installs the process-wide hooks a second time, by a pool that is
not the first pool ever created. -/
theorem C5_counterexample :
    (runPoolOps [PoolOp.construct 1, PoolOp.shutdown 1,
        PoolOp.construct 2]).installs = [1, 2] ∧
    (runPoolOps [PoolOp.construct 1, PoolOp.shutdown 1,
        PoolOp.construct 2]).installs.length ≠ 1 := by
  decide

/-- Claim C5 as amended: the hooks are installed exactly by pools
constructed while the registry is empty — so across any sequence of
constructions with no intervening shutdown the first pool installs
them exactly once and they are never installed again; but once every
pool has been shut down, the next construction reinstalls them. -/
theorem C5_hooks_amended :
    (∀ id ids,
      (runPoolOps ((id :: ids).map PoolOp.construct)).installs = [id]) ∧
    (∀ s op, (poolStep s op).installs = s.installs ∨
      ∃ i, op = PoolOp.construct i ∧ s.pools = [] ∧
        (poolStep s op).installs = s.installs ++ [i]) := by
  constructor
  · intro id ids
    show ((ids.map PoolOp.construct).foldl poolStep
      (poolStep initialProc (PoolOp.construct id))).installs = [id]
    have h0 : poolStep initialProc (PoolOp.construct id) =
        ⟨[id], [id]⟩ := rfl
    rw [h0]
    exact constructs_no_install ids ⟨[id], [id]⟩ (by simp)
  · intro s op
    cases op with
    | construct i =>
      by_cases hp : s.pools = []
      · exact Or.inr ⟨i, rfl, hp, by simp [poolStep, hp]⟩
      · exact Or.inl (by simp [poolStep, hp])
    | shutdown i =>
      refine Or.inl ?_
      by_cases hm : i ∈ s.pools <;> simp [poolStep, hm]

/-- A `flatMap` whose function ignores the index is the flattening of
a replicated block. -/
theorem range_flatMap_const {α : Type} (n : ℕ) (l : List α) :
    (List.range n).flatMap (fun _ => l) = (List.replicate n l).flatten := by
  induction n with
  | zero => rfl
  | succ k ih =>
    simp [List.range_succ, List.replicate_succ', ih]

/-- Flattening `n` copies of a block multiplies its length by `n`. -/
theorem length_flatten_replicate {α : Type} (n : ℕ) (l : List α) :
    (List.replicate n l).flatten.length = n * l.length := by
  induction n with
  | zero => simp
  | succ k ih => simp [List.replicate_succ, ih, Nat.succ_mul, Nat.add_comm]

/-- Claim C8: a well-formed node entry expands to exactly
`multiplier * (deviceMax - deviceMin + 1)` launches — the device
block repeated once per repetition, each selector carrying the
parsed platform — and the three concrete spec examples parse and
expand exactly as stated: `host/0:0` to one launch `0:0`,
`host/1:0-2` to three launches `1:0`, `1:1`, `1:2`, and
`host/0:2-3x3` to six launches. -/
theorem C8_node_expansion :
    (∀ node spec, parseNode node = some spec →
      spec.devMin ≤ spec.devMax →
      (expandSpec spec).length =
        spec.mult * (spec.devMax - spec.devMin + 1) ∧
      expandSpec spec =
        (List.replicate spec.mult
          ((pyRange spec.devMin (spec.devMax + 1)).map
            (fun d => (spec.platform, d)))).flatten) ∧
    nodeLaunches "host/0:0" = some ("host", [(0, 0)]) ∧
    nodeLaunches "host/1:0-2" = some ("host", [(1, 0), (1, 1), (1, 2)]) ∧
    nodeLaunches "host/0:2-3x3" =
      some ("host", [(0, 2), (0, 3), (0, 2), (0, 3), (0, 2), (0, 3)]) := by
  refine ⟨?_, by decide, by decide, by decide⟩
  intro node spec _ hle
  have h2 : expandSpec spec =
      (List.replicate spec.mult
        ((pyRange spec.devMin (spec.devMax + 1)).map
          (fun d => (spec.platform, d)))).flatten :=
    range_flatMap_const _ _
  refine ⟨?_, h2⟩
  rw [h2, length_flatten_replicate]
  have hlen : ((pyRange spec.devMin (spec.devMax + 1)).map
      (fun d => (spec.platform, d))).length =
      spec.devMax - spec.devMin + 1 := by
    simp [pyRange]
    omega
  rw [hlen]

/-- Witness for C8: the `host/0:2-3x3` entry launches six remote
processes. -/
theorem C8_node_expansion_witness :
    (expandSpec ⟨"host", 0, 2, 3, 3⟩).length = 3 * (3 - 2 + 1) :=
  (C8_node_expansion.1 "host/0:2-3x3" ⟨"host", 0, 2, 3, 3⟩
    (by decide) (by decide)).1

/-- The source's "keep the smaller" update
`if x < m then m := x` computes the minimum. -/
theorem ite_lt_min (a b : ℚ) : (if a < b then a else b) = min a b := by
  rcases le_or_lt b a with h | h
  · rw [if_neg (not_lt.2 h), min_eq_right h]
  · rw [if_pos h, min_eq_left h.le]


/-- One sweep step's effect on `min_dt`: the observed time is folded
in with `min` at the observation's data type.  For CPU observations
this relies on the invariant `min_dt ≤ dt_numpy` (the source updates
`min_dt` from `dt_numpy`, not from the raw sample). -/
theorem stepObs_min_dt (s : TestState) (o : Obs)
    (h : s.min_dt o.dtype ≤ s.dt_numpy o.dtype) (ty : String) :
    (stepObs s o).min_dt ty =
      if ty = o.dtype then min (s.min_dt ty) o.time else s.min_dt ty := by
  cases o with
  | numpy ty' t =>
    simp only [Obs.dtype, Obs.time] at h ⊢
    by_cases hty : ty = ty'
    · subst hty
      simp only [stepObs, if_pos rfl, ite_lt_min]
      rw [min_assoc, min_eq_right h, min_comm]
    · simp [stepObs, hty]
  | dev ty' bs t =>
    simp only [Obs.dtype, Obs.time] at h ⊢
    by_cases hdd : t < s.dev_dt ty' <;> by_cases hm : t < s.min_dt ty'
    · by_cases hty : ty = ty'
      · subst hty
        simp [stepObs, hdd, hm, min_eq_right hm.le]
      · simp [stepObs, hdd, hm, hty]
    · by_cases hty : ty = ty'
      · subst hty
        simp [stepObs, hdd, hm, min_eq_left (not_lt.1 hm)]
      · simp [stepObs, hdd, hm, hty]
    · by_cases hty : ty = ty'
      · subst hty
        simp [stepObs, hdd, hm, min_eq_right hm.le]
      · simp [stepObs, hdd, hm, hty]
    · by_cases hty : ty = ty'
      · subst hty
        simp [stepObs, hdd, hm, min_eq_left (not_lt.1 hm)]
      · simp [stepObs, hdd, hm, hty]

/-- A device observation never touches `dt_numpy`. -/
theorem stepObs_dt_numpy_dev (s : TestState) (ty' : String) (bs : ℕ)
    (t : ℚ) :
    (stepObs s (Obs.dev ty' bs t)).dt_numpy = s.dt_numpy := by
  by_cases hdd : t < s.dev_dt ty' <;> by_cases hm : t < s.min_dt ty' <;>
    simp [stepObs, hdd, hm]

/-- A CPU observation folds its time into `dt_numpy` with `min` at
its data type. -/
theorem stepObs_dt_numpy_numpy (s : TestState) (ty' : String) (t : ℚ)
    (ty : String) :
    (stepObs s (Obs.numpy ty' t)).dt_numpy ty =
      if ty = ty' then min (s.dt_numpy ty) t else s.dt_numpy ty := by
  by_cases hty : ty = ty'
  · subst hty
    simp [stepObs, ite_lt_min, min_comm]
  · simp [stepObs, hty]

/-- The sweep invariant `min_dt ≤ dt_numpy` (pointwise) is preserved
by every step. -/
theorem stepObs_inv (s : TestState) (o : Obs)
    (h : ∀ ty, s.min_dt ty ≤ s.dt_numpy ty) (ty : String) :
    (stepObs s o).min_dt ty ≤ (stepObs s o).dt_numpy ty := by
  rw [stepObs_min_dt s o (h _) ty]
  cases o with
  | numpy ty' t =>
    rw [stepObs_dt_numpy_numpy]
    simp only [Obs.dtype, Obs.time]
    by_cases hty : ty = ty'
    · rw [if_pos hty, if_pos hty]
      exact min_le_min (h ty) le_rfl
    · rw [if_neg hty, if_neg hty]
      exact h ty
  | dev ty' bs t =>
    rw [stepObs_dt_numpy_dev]
    simp only [Obs.dtype, Obs.time]
    by_cases hty : ty = ty'
    · rw [if_pos hty]
      exact le_trans (min_le_left _ _) (h ty)
    · rw [if_neg hty]
      exact h ty

/-- The whole sweep computes, per data type, the running minimum of
the initial `min_dt` and every observed time of that type. -/
theorem sweep_min_dt (obs : List Obs) (s : TestState)
    (h : ∀ ty, s.min_dt ty ≤ s.dt_numpy ty) (ty : String) :
    (obs.foldl stepObs s).min_dt ty =
      (obsTimes obs ty).foldl min (s.min_dt ty) := by
  induction obs generalizing s with
  | nil => rfl
  | cons o rest ih =>
    rw [List.foldl_cons, ih (stepObs s o) (fun ty2 => stepObs_inv s o h ty2),
      stepObs_min_dt s o (h _) ty]
    by_cases hty : o.dtype = ty
    · have he : obsTimes (o :: rest) ty = o.time :: obsTimes rest ty := by
        simp [obsTimes, hty]
      rw [he, List.foldl_cons, if_pos hty.symm]
    · have he : obsTimes (o :: rest) ty = obsTimes rest ty := by
        simp [obsTimes, hty]
      rw [he, if_neg (fun hh => hty hh.symm)]

/-- Counterexample to claim C2 as stated: one unknown device with an
empty prior cache, CPU reference time 2 s, device best time 4 s.
The minimum time across the current device and every previously
known device is the device's own 4 s, so the claim predicts rating
4/4 = 1 and a leveled minimum of 4; the code instead divides by the
minimum including the CPU reference time, producing rating 1/2 and
leveling `min_dt` to 2. -/
theorem C2_counterexample :
    ((doTests [DeviceInfoM.mkDefault "dev0"] "dev0"
        [Obs.numpy "f" 2, Obs.dev "f" 32 4]).map
      (fun di => (di.rating "f", di.dt "f", di.min_dt "f"))) =
      [((1 : ℚ)/2, (4 : ℚ), (2 : ℚ))] ∧
    ((1 : ℚ)/2 ≠ 4/4 ∧ (2 : ℚ) ≠ 4) := by
  constructor
  · simp only [doTests, applyRatings, initMinDt, stepObs, DeviceInfoM.mkDefault,
      List.foldl_cons, List.foldl_nil, List.map_cons, List.map_nil, List.find?]
    norm_num
  · norm_num

/-- Claim C2 as amended: after `_do_tests`, for every cached device
and every data type the rating is `m / dt` where `dt` is that
device's own best time and `m` is the minimum of (a) the first
cache entry's recorded minimum time (86400 when the cache holds
only the fresh current device) and (b) every time observed during
this pass — both the CPU reference times and the current device's
measured times; every device's `min_dt` field is leveled to that
same `m`.  (The hypothesis `initMinDt ≤ 86400` always holds for
caches the code itself writes, whose `min_dt` entries start at the
86400 sentinel and only ever decrease.) -/
theorem C2_rating_amended (infos : List DeviceInfoM) (curDesc : String)
    (obs : List Obs) (hinit : ∀ ty, initMinDt infos ty ≤ 86400) :
    ∀ di ∈ doTests infos curDesc obs, ∀ ty,
      di.rating ty =
        (obsTimes obs ty).foldl min (initMinDt infos ty) / di.dt ty ∧
      di.min_dt ty = (obsTimes obs ty).foldl min (initMinDt infos ty) := by
  intro di hdi ty
  simp only [doTests, applyRatings] at hdi
  rw [List.mem_map] at hdi
  obtain ⟨x, hx, rfl⟩ := hdi
  have hm := sweep_min_dt obs
      { dt_numpy := fun _ => 86400
        min_dt := initMinDt infos
        dev_dt := fun _ => 86400
        dev_block :=
          match infos.find? (fun di => di.desc = curDesc) with
          | some di => di.block
          | none => fun _ => 8 }
      (fun ty2 => hinit ty2) ty
  exact ⟨by rw [← hm], by rw [← hm]⟩

/-- Witness for C2's amended theorem: a fresh device with a single
device observation of 10 s has its `min_dt` leveled to 10. -/
theorem C2_rating_amended_witness :
    ((doTests [DeviceInfoM.mkDefault "d"] "d" [Obs.dev "f" 8 10]).map
      (fun di => di.min_dt "f")) = [(10 : ℚ)] := by
  have h := C2_rating_amended [DeviceInfoM.mkDefault "d"] "d"
      [Obs.dev "f" 8 10] (fun ty => le_refl _)
  have hmap := List.map_congr_left (fun a ha => (h a ha "f").2)
  rw [hmap]
  simp only [doTests, applyRatings, initMinDt, stepObs, DeviceInfoM.mkDefault,
    obsTimes, List.foldl_cons, List.foldl_nil, List.map_cons, List.map_nil,
    List.filter, List.find?, Obs.dtype, Obs.time]
  norm_num [Obs.time, min_def]

/-- Claim C7: a missing or unreadable performance-cache file
(`IOError` on load) is non-fatal and behaves exactly like an empty
cache; and whenever the current device's description is present in
the loaded cache and re-testing known devices is not forced, the
cached rating, measured times, minimum times, and block sizes are
adopted and no benchmarking pass runs. -/
theorem C7_cache_adoption (cfg : OclConfig)
    (loaded : Option (List DeviceInfoM)) (di cached : DeviceInfoM)
    (obs : List Obs) :
    (fillDeviceInfoPerformanceValues cfg none di obs =
      fillDeviceInfoPerformanceValues cfg (some []) di obs) ∧
    (cfg.test_known_device = false →
      (loaded.getD []).find? (fun d => d.desc = di.desc) = some cached →
      fillDeviceInfoPerformanceValues cfg loaded di obs =
        ({ di with
            rating := cached.rating
            block := cached.block
            dt := cached.dt
            min_dt := cached.min_dt }, false)) := by
  refine ⟨rfl, ?_⟩
  intro hk hf
  have hmem : cached ∈ loaded.getD [] := List.mem_of_find?_eq_some hf
  have hp : (fun d => decide (d.desc = di.desc)) cached = true := by
    revert hf
    generalize loaded.getD [] = l
    intro hf
    induction l with
    | nil => simp [List.find?] at hf
    | cons x xs ih =>
      rw [List.find?_cons] at hf
      cases hx : decide (x.desc = di.desc)
      · rw [hx] at hf
        exact ih hf
      · rw [hx] at hf
        injection hf with hfx
        subst hfx
        exact hx
  have hany : (loaded.getD []).any (fun d => d.desc = di.desc) = true :=
    List.any_eq_true.2 ⟨cached, hmem, hp⟩
  simp [fillDeviceInfoPerformanceValues, hk, hany, hf]

/-- Witness for C7: a device whose description is cached adopts the
cached rating 1 without benchmarking. -/
theorem C7_cache_adoption_witness :
    (fillDeviceInfoPerformanceValues ⟨false, true⟩ (some [c7cached])
      (DeviceInfoM.mkDefault "d0") []).2 = false ∧
    (fillDeviceInfoPerformanceValues ⟨false, true⟩ (some [c7cached])
      (DeviceInfoM.mkDefault "d0") []).1.rating "x" = 1 := by
  have h := (C7_cache_adoption ⟨false, true⟩ (some [c7cached])
      (DeviceInfoM.mkDefault "d0") c7cached []).2 rfl rfl
  rw [h]
  exact ⟨rfl, rfl⟩
